import Mathlib

/-!
Verification of the network-reconnaissance engine of `apps/scans_app`
(`utils/cache.py`, `utils/cve_providers.py`, `utils/scanner.py`).

The Python code is shallowly embedded: pure helpers become Lean functions;
the external world (sockets, HTTP, TLS handshakes, provider APIs, the
`strptime` date parser and the wall clock) is an explicit `Env` of oracles;
every `try/except` of the source is a `match` on an `Except` value at the
exact place the source catches; the module-level in-memory cache dictionary
is threaded as explicit state.  Machine floats for timestamps are modelled
as integers (seconds); Python truthiness (`or`, `if x:`) is modelled
explicitly wherever the source relies on it.
-/

namespace Scanner

/-! ## Character-level string primitives

The Lean core implementations of `String.trim`, `String.toLower`,
`String.startsWith`, `String.replace` and the `String` order work on UTF-8
byte positions; these equivalent character-list versions are used instead
so that every definition evaluates inside the kernel.  Python's `strip()`
whitespace class is modelled by `Char.isWhitespace` (ASCII whitespace,
which is all the scanner ever meets). -/

/-- Does the first list occur at the head of the second one? -/
def headMatch : List Char → List Char → Bool
  | [], _ => true
  | _ :: _, [] => false
  | n :: ns, h :: hs => n == h && headMatch ns hs

/-- Python's `needle in hay` on strings, as character lists. -/
def containsChars (needle : List Char) : List Char → Bool
  | [] => needle.isEmpty
  | c :: cs => headMatch needle (c :: cs) || containsChars needle cs

/-- Python's `needle in hay` on strings. -/
def containsSub (needle hay : String) : Bool :=
  containsChars needle.toList hay.toList

/-- `hay.startswith(pre)`. -/
def startsStr (pre hay : String) : Bool :=
  headMatch pre.toList hay.toList

/-- Python `s.strip()`. -/
def pyStrip (s : String) : String :=
  (((s.toList.dropWhile (fun c => c.isWhitespace)).reverse.dropWhile
      (fun c => c.isWhitespace)).reverse).asString

/-- Python `s.lower()`. -/
def lowerStr (s : String) : String :=
  (s.toList.map Char.toLower).asString

/-- Boolean lexicographic `≤` on character lists. -/
def charListLe : List Char → List Char → Bool
  | [], _ => true
  | _ :: _, [] => false
  | a :: as, b :: bs => if a = b then charListLe as bs else decide (a < b)

/-- Boolean lexicographic `≤` on strings. -/
def strLeB (a b : String) : Bool := charListLe a.toList b.toList

/-! ## `cache.py`, string-level store (lines 48-78, in-process fallback)

`_memory_store : dict[str, tuple[str, Optional[float]]]` maps a key to the
stored string and an optional absolute expiry time.  We model the store as a
function from keys, and `time.time()` as an explicit `now : Nat` argument.
The Redis client is absent (`get_client() = None`), which is the in-process
fallback path the claims are about. -/

/-- The in-memory store: key -> (value, optional expiry timestamp). -/
def Store := String → Option (String × Option Nat)

/-- The store at process start: empty dictionary. -/
def emptyStore : Store := fun _ => none

/-- `cache.set(key, value, ttl)` on the in-process fallback:
`expires_at = (time.time() + ttl) if ttl else None` — a zero `ttl` is falsy
and stores no expiry. -/
def cacheSet (s : Store) (now : Nat) (key value : String) (ttl : Nat) : Store :=
  fun k =>
    if k = key then some (value, if ttl ≠ 0 then some (now + ttl) else none)
    else s k

/-- `cache.get(key)` on the in-process fallback.  Mirrors
`if expires_at and expires_at < time.time(): pop; return None` — note the
Python truthiness test on `expires_at` and the strict `<`.  Returns the
value read together with the store after the expired-entry pop. -/
def cacheGet (s : Store) (now : Nat) (key : String) : Option String × Store :=
  match s key with
  | none => (none, s)
  | some (v, none) => (some v, s)
  | some (v, some e) =>
    if e ≠ 0 ∧ e < now then (none, fun k => if k = key then none else s k)
    else (some v, s)

/-! ## `cache.py` `cache_key` (lines 102-104) -/

/-- Normalisation of one key part: `p.replace(" ", "_").lower()`. -/
def normPart (p : String) : String :=
  ((p.toList.map (fun c => if c = ' ' then '_' else c)).map Char.toLower).asString

/-- `":".join(parts)`. -/
def joinParts : List String → String
  | [] => ""
  | [p] => p
  | p :: q :: rest => p ++ ":" ++ joinParts (q :: rest)

/-- `cache_key(*parts)`: drop falsy (empty) parts, normalise each, join
with `":"`, and put the `vulnscanner:` namespace in front. -/
def cache_key (parts : List String) : String :=
  "vulnscanner:" ++ joinParts ((parts.filter (fun p => p ≠ "")).map normPart)

/-! ## Python `sorted(set(...))` on lists of CVE id strings

Lean's `String` order is lexicographic on the character code points, the
same order Python uses for `str`.  `sorted(set(l))` is the unique sorted
duplicate-free list with the members of `l`; we realise it as insertion
sort of `l.dedup`. -/

/-- `sorted(set(l))` for a list of strings. -/
def pySortedSet (l : List String) : List String :=
  List.insertionSort (fun a b => strLeB a b = true) l.dedup

/-! ## `cache.py` JSON wrappers as used by `cve_providers.py`

`set_json`/`get_json` pass values through `json.dumps`/`json.loads`.  The
provider layer only ever stores lists of strings, for which the JSON
round-trip is lossless, so this store keeps the decoded value directly.
The expiry logic is the same as `cacheGet`/`cacheSet` above; the
expired-entry pop done by `get` is dropped here because it never changes
the result of any later `get` or `set`. -/

/-- Store as seen through the JSON wrappers: key -> (decoded list, expiry). -/
def CveStore := String → Option (List String × Option Nat)

/-- The provider-cache store at process start: empty dictionary. -/
def emptyCveStore : CveStore := fun _ => none

/-- `get_json(key)` (decoded-value model of `get` + `json.loads`). -/
def get_json (s : CveStore) (now : Nat) (key : String) : Option (List String) :=
  match s key with
  | none => none
  | some (v, none) => some v
  | some (v, some e) => if e ≠ 0 ∧ e < now then none else some v

/-- `set_json(key, value, ttl)` (decoded-value model of `json.dumps` + `set`). -/
def set_json (s : CveStore) (now : Nat) (key : String) (value : List String)
    (ttl : Nat) : CveStore :=
  fun k =>
    if k = key then some (value, if ttl ≠ 0 then some (now + ttl) else none)
    else s k

/-! ## The environment of external oracles

One scan invocation interacts with the outside world only through these
functions.  A result of `Except.error msg` at an oracle stands for the
corresponding Python call raising an exception (with message `msg`); the
embedding catches it exactly where the source has a `try/except`. -/

/-- Response fields of `requests` that `_http_basic_checks` reads.  The
headers dictionary is abstracted into the individual header values the
source extracts from it. -/
structure HttpResp where
  status : Int
  server : Option String
  contentType : Option String
  hsts : Bool
  csp : Option String
  setCookie : String
  text : String
  history : List String
  deriving Repr, DecidableEq

/-- The peer-certificate dictionary fields read by `_tls_cert_info`.
`issuer`/`subject` are opaque payloads. -/
structure PeerCert where
  notBefore : Option String
  notAfter : Option String
  subjectAltName : List (String × String)
  issuer : Option String
  subject : Option String
  deriving Repr, DecidableEq

/-- All external effects of one scan. -/
structure Env where
  /-- `socket.create_connection((host, port))` in `_tcp_connect`. -/
  connect : String → Nat → Except String Unit
  /-- whole banner-grab attempt in `_banner_grab`: decoded received bytes
  on success, the raised exception otherwise. -/
  recv : String → Nat → Except String String
  /-- `session.head(url, ...)`. -/
  head : String → Except String HttpResp
  /-- `session.get(url, ...)`, keyed by the requested URL. -/
  get : String → Except String HttpResp
  /-- TLS handshake plus `getpeercert()` against port 443 of the host. -/
  tlsCert : String → Except String PeerCert
  /-- `datetime.strptime(x, "%b %d %H:%M:%S %Y %Z")` as UTC seconds;
  `none` models the `except` branch of `_parse_dt`. -/
  parseDate : String → Option Int
  /-- `datetime.now(timezone.utc)` as UTC seconds. -/
  now : Int
  /-- `time.time()` used by the cache layer during this scan. -/
  time : Nat
  /-- `os.getenv("CVE_CACHE_TTL")`, already parsed by `int(...)`. -/
  cveTTLVar : Option Nat
  /-- `os.getenv("NVD_API_KEY")`. -/
  nvdApiKey : Option String
  /-- OSV fetch: the id strings collected from the response JSON (aliases
  and `id` fields) before the `CVE-` filter, or the raised exception /
  non-200 status. -/
  osvFetch : String → Option String → Except String (List String)
  /-- NVD fetch keyed by the keyword query: the `cve.id` strings of the
  response, or the raised exception / non-200 status. -/
  nvdFetch : String → Except String (List String)
  /-- CIRCL fetch keyed by (vendor, product): the row `id` strings of the
  response before the `CVE-` filter, or the raised exception / non-200. -/
  circlFetch : String → String → Except String (List String)

/-- `CACHE_TTL_SECONDS = int(os.getenv("CVE_CACHE_TTL", "86400"))`. -/
def cveCacheTTL (envVar : Option Nat) : Nat := envVar.getD 86400

/-! ## `cve_providers.py` -/

/-- `_cached(key, ttl, fetch_fn)` followed by the callers' `... or []`:
on a cache hit return it, otherwise fetch and (the fetch result is never
`None` here) store it.  A fetched `[]` is stored and returned, and a
cached `[]` is a hit; `or []` never changes a list value. -/
def cachedCall (env : Env) (key : String) (fetch : Unit → List String)
    (s : CveStore) : List String × CveStore :=
  match get_json s env.time key with
  | some hit => (hit, s)
  | none =>
    let data := fetch ()
    (data, set_json s env.time key data (cveCacheTTL env.cveTTLVar))

/-- The cache key built inside `osv_lookup`:
`cache_key("cve", "osv", p, version or "")` with `p` the stripped product. -/
def osvKeyOf (product : String) (version : Option String) : String :=
  cache_key ["cve", "osv", pyStrip product, version.getD ""]

/-- `osv_lookup(product, version)` (`ENABLE_OSV` is the constant `True`).
The fetch filters ids down to those starting with `CVE-` and returns
`sorted(list(set(cves)))`; any exception or non-200 yields `[]`. -/
def osv_lookup (env : Env) (product : String) (version : Option String)
    (s : CveStore) : List String × CveStore :=
  let p := pyStrip product
  if p = "" then ([], s)
  else
    cachedCall env (osvKeyOf product version)
      (fun _ =>
        match env.osvFetch p version with
        | .ok ids => pySortedSet (ids.filter (fun c => startsStr "CVE-" c))
        | .error _ => [])
      s

/-- `ENABLE_NVD and NVD_API_KEY`: both are truthiness tests on
`os.getenv("NVD_API_KEY")`. -/
def nvdEnabled (env : Env) : Bool :=
  match env.nvdApiKey with
  | some k => k ≠ ""
  | none => false

/-- `q = f"{product} {version}".strip() if version else product.strip()` —
`if version` is a truthiness test, so `None` and `""` both take the
product-only branch. -/
def nvdQuery (product : String) (version : Option String) : String :=
  match version with
  | some v => if v = "" then pyStrip product else pyStrip (product ++ " " ++ v)
  | none => pyStrip product

/-- The cache key built inside `nvd_lookup`: `cache_key("cve", "nvd", q)`. -/
def nvdKeyOf (product : String) (version : Option String) : String :=
  cache_key ["cve", "nvd", nvdQuery product version]

/-- `nvd_lookup(product, version)`. -/
def nvd_lookup (env : Env) (product : String) (version : Option String)
    (s : CveStore) : List String × CveStore :=
  if ¬ nvdEnabled env then ([], s)
  else
    let q := nvdQuery product version
    if q = "" then ([], s)
    else
      cachedCall env (nvdKeyOf product version)
        (fun _ =>
          match env.nvdFetch q with
          | .ok ids => pySortedSet ids
          | .error _ => [])
        s

/-- The cache key built inside `circl_lookup`:
`cache_key("cve", "circl", v, p)` with `v`,`p` stripped and lowercased.
It does not involve any version. -/
def circlKeyOf (vendor product : String) : String :=
  cache_key ["cve", "circl", lowerStr (pyStrip vendor), lowerStr (pyStrip product)]

/-- `circl_lookup(vendor, product)` (`ENABLE_CIRCL` is the constant
`True`).  The fetch keeps only ids starting with `CVE-`. -/
def circl_lookup (env : Env) (vendor product : String)
    (s : CveStore) : List String × CveStore :=
  let v := lowerStr (pyStrip vendor)
  let p := lowerStr (pyStrip product)
  if v = "" ∨ p = "" then ([], s)
  else
    cachedCall env (circlKeyOf vendor product)
      (fun _ =>
        match env.circlFetch v p with
        | .ok ids => pySortedSet (ids.filter (fun c => startsStr "CVE-" c))
        | .error _ => [])
      s

/-- `_VENDOR_MAP` in its source (dict insertion) order. -/
def VENDOR_MAP : List (String × String) :=
  [("nginx", "nginx"), ("apache", "apache"), ("httpd", "apache"),
   ("openssl", "openssl"), ("openssh", "openssh"), ("mysql", "oracle"),
   ("postgresql", "postgresql"), ("gunicorn", "gunicorn")]

/-- `_guess_vendor(product)`: first map entry whose key is a substring of
the stripped, lowercased product. -/
def _guess_vendor (product : String) : Option String :=
  let p := lowerStr (pyStrip product)
  (VENDOR_MAP.find? (fun kv => containsSub kv.1 p)).map (·.2)

/-- The CIRCL cache key used for a fingerprint `(product, version)` inside
`query_cves_for_product_version`: the version plays no part in it. -/
def circlKeyOfFingerprint (product : String) (_version : Option String) :
    Option String :=
  (_guess_vendor (pyStrip product)).map (fun vend => circlKeyOf vend (pyStrip product))

/-- `query_cves_for_product_version(product, version)`: normalise the
arguments (`(version or None) or None` turns `""` into `None`), call the
providers in order, concatenate, and return `sorted(set(out))`. -/
def query_cves_for_product_version (env : Env) (product : String)
    (version : Option String) (s : CveStore) : List String × CveStore :=
  let product := pyStrip product
  let version := version.bind (fun v => if v = "" then none else some v)
  if product = "" then ([], s)
  else
    let osvR := osv_lookup env product version s
    let nvdR := nvd_lookup env product version osvR.2
    let circlR :=
      match _guess_vendor product with
      | some vend => circl_lookup env vend product nvdR.2
      | none => ([], nvdR.2)
    (pySortedSet (osvR.1 ++ nvdR.1 ++ circlR.1), circlR.2)

/-! ## `scanner.py` configuration tables -/

def TOP_PORTS_QUICK : List Nat := [80, 443, 22, 21, 25, 3306, 445]

def TOP_PORTS_FULL : List Nat :=
  [21, 22, 23, 25, 53, 80, 110, 135, 139, 143, 161, 389, 443, 445,
   3389, 5900, 8080, 8081, 8443, 3306, 9200, 27017]

def PORT_SERVICE : List (Nat × String) :=
  [(21, "ftp"), (22, "ssh"), (23, "telnet"), (25, "smtp"), (53, "dns"),
   (80, "http"), (110, "pop3"), (135, "msrpc"), (139, "netbios-ssn"),
   (143, "imap"), (161, "snmp"), (389, "ldap"), (443, "https"),
   (445, "smb"), (3389, "rdp"), (5900, "vnc"), (8080, "http-alt"),
   (8081, "http-alt"), (8443, "https-alt"), (3306, "mysql"),
   (9200, "elasticsearch"), (27017, "mongodb")]

/-- `PORT_SERVICE.get(port, "unknown")`. -/
def serviceFor (port : Nat) : String :=
  (PORT_SERVICE.lookup port).getD "unknown"

/-- The port list for a mode:
`TOP_PORTS_QUICK if mode == "quick" else TOP_PORTS_FULL`. -/
def portsFor (mode : String) : List Nat :=
  if mode = "quick" then TOP_PORTS_QUICK else TOP_PORTS_FULL

/-! ## `PRODUCT_PATTERNS` and `_extract_product_version`

Each source pattern is `(name)sep(?P<ver>...)` under `re.I` with `search`
semantics: the engine tries every start position left to right and at each
position matches the literal name case-insensitively, one separator
character, and a greedy version expression that nothing follows (so no
backtracking can occur).  The three version shapes in the table are
`\d+(\.\d+){0,3}` (dotted), `\d+(\.\d+){0,3}[a-z]?` (dotted plus optional
letter, `[a-z]` being case-insensitive under `re.I`) and `\d+[^\s/]*`
(OpenSSH). -/

inductive VerShape where
  | dotted
  | dottedAlpha
  | sshTail
  deriving Repr, DecidableEq

structure ProdPat where
  name : String
  seps : List Char
  shape : VerShape
  deriving Repr, DecidableEq

def PRODUCT_PATTERNS : List ProdPat :=
  [⟨"nginx", ['/', '-', ' '], .dotted⟩,
   ⟨"apache", ['/', '-', ' '], .dotted⟩,
   ⟨"httpd", ['/', '-', ' '], .dotted⟩,
   ⟨"openssh", ['_', '/', ' '], .sshTail⟩,
   ⟨"openssl", ['/', '-', ' '], .dottedAlpha⟩,
   ⟨"gunicorn", ['/', '-', ' '], .dotted⟩,
   ⟨"mysql", ['/', '-', ' '], .dotted⟩,
   ⟨"postgresql", ['/', '-', ' '], .dotted⟩]

/-- Case-insensitive match of a literal at the head of the input; returns
the consumed original-case characters (the `group(1)` text) and the rest. -/
def matchNameCI : List Char → List Char → Option (List Char × List Char)
  | [], cs => some ([], cs)
  | _ :: _, [] => none
  | n :: ns, c :: cs =>
    if c.toLower = n.toLower then
      (matchNameCI ns cs).map (fun pr => (c :: pr.1, pr.2))
    else none

/-- Up to `fuel` repetitions of `\.\d+`, greedily. -/
def dottedTail : Nat → List Char → List Char
  | 0, _ => []
  | Nat.succ k, cs =>
    match cs with
    | '.' :: rest =>
      let ds := rest.takeWhile Char.isDigit
      if ds = [] then []
      else '.' :: ds ++ dottedTail k (rest.dropWhile Char.isDigit)
    | _ => []

/-- `[^\s/]`. -/
def nonSpaceSlash (c : Char) : Bool := ¬ c.isWhitespace ∧ c ≠ '/'

/-- Greedy match of one version shape at the head of the input (nothing
follows the version group in any pattern, so greedy needs no backtrack).
Fails when the mandatory leading `\d+` finds no digit. -/
def matchVer : VerShape → List Char → Option (List Char)
  | .dotted, cs =>
    let ds := cs.takeWhile Char.isDigit
    if ds = [] then none
    else some (ds ++ dottedTail 3 (cs.dropWhile Char.isDigit))
  | .dottedAlpha, cs =>
    let ds := cs.takeWhile Char.isDigit
    if ds = [] then none
    else
      let core := ds ++ dottedTail 3 (cs.dropWhile Char.isDigit)
      match cs.drop core.length with
      | a :: _ => if a.isAlpha then some (core ++ [a]) else some core
      | [] => some core
  | .sshTail, cs =>
    match cs with
    | c :: _ =>
      if c.isDigit then some (cs.takeWhile nonSpaceSlash) else none
    | [] => none

/-- Try one pattern at one start position. -/
def matchPatAt (pat : ProdPat) (cs : List Char) : Option (String × String) :=
  match matchNameCI pat.name.toList cs with
  | none => none
  | some (prodChars, rest) =>
    match rest with
    | [] => none
    | sep :: rest2 =>
      if sep ∈ pat.seps then
        (matchVer pat.shape rest2).map
          (fun v => (prodChars.asString, v.asString))
      else none

/-- `pat.search(t)`: leftmost start position wins. -/
def patSearch (pat : ProdPat) : List Char → Option (String × String)
  | [] => none
  | c :: cs =>
    match matchPatAt pat (c :: cs) with
    | some r => some r
    | none => patSearch pat cs

/-- The pattern loop of `_extract_product_version`: first pattern (in
table order) whose `search` finds a match wins. -/
def firstPatMatch : List ProdPat → List Char → Option (String × String)
  | [], _ => none
  | pat :: pats, cs =>
    match patSearch pat cs with
    | some r => some r
    | none => firstPatMatch pats cs

/-- Delimiter class of the fallback split: `[ /()_;\-]`. -/
def isDelim (c : Char) : Bool :=
  c = ' ' ∨ c = '/' ∨ c = '(' ∨ c = ')' ∨ c = '_' ∨ c = ';' ∨ c = '-'

/-- `re.split(r"[ /()_;\-]", t)`: split on single delimiter characters,
keeping empty pieces. -/
def splitDelims : List Char → List (List Char)
  | [] => [[]]
  | c :: cs =>
    if isDelim c then [] :: splitDelims cs
    else
      match splitDelims cs with
      | t :: ts => (c :: t) :: ts
      | [] => [[c]]

/-- The fallback token test: `tok and tok.isalpha() and len(tok) > 2`
(`isalpha` modelled over ASCII letters, which is what service banners and
header values contain). -/
def goodToken (tok : List Char) : Bool :=
  tok ≠ [] ∧ tok.all Char.isAlpha ∧ 2 < tok.length

/-- The fallback loop: first delimiter-separated token that is nonempty,
all-alphabetic and longer than 2 characters. -/
def firstGoodToken : List (List Char) → Option String
  | [] => none
  | tok :: toks =>
    if goodToken tok then some tok.asString else firstGoodToken toks

/-- `_extract_product_version(text)` (lines 222-240).  `if not text`
catches both `None` and the empty string. -/
def _extract_product_version : Option String → Option (String × Option String)
  | none => none
  | some s =>
    if s = "" then none
    else
      let t := pyStrip s
      match firstPatMatch PRODUCT_PATTERNS t.toList with
      | some pv => some (pv.1, some pv.2)
      | none => (firstGoodToken (splitDelims t.toList)).map (fun p => (p, none))

/-! ## `_normalize_target` (lines 66-73)

`urlparse` is entered only for inputs that literally start with `http://`
or `https://`; its `netloc` is the text between `://` and the first of
`/`, `?`, `#`, and `urlsplit` raises `ValueError("Invalid IPv6 URL")`
when that authority contains an unbalanced square bracket.  (Recent
CPython versions reject further bracketed-host garbage; the unbalanced
check exists in all of them.)  `netloc.split("/", 1)[0]` is the whole
netloc, which cannot contain `/`. -/

/-- Does the trimmed target enter the URL branch? -/
def schemed (t : String) : Bool :=
  startsStr "http://" t ∨ startsStr "https://" t

/-- The scheme preserved by the URL branch. -/
def schemeOf (t : String) : String :=
  if startsStr "https://" t then "https" else "http"

/-- `urlparse(t).netloc` for a `t` that starts with `http://`/`https://`. -/
def netlocOf (t : String) : List Char :=
  (t.toList.drop (schemeOf t ++ "://").length).takeWhile
    (fun c => c ≠ '/' ∧ c ≠ '?' ∧ c ≠ '#')

/-- The unbalanced-bracket test of `urlsplit` on the netloc. -/
def bracketsBad (netloc : List Char) : Bool :=
  ('[' ∈ netloc ∧ ']' ∉ netloc) ∨ (']' ∈ netloc ∧ '[' ∉ netloc)

/-- `_normalize_target(target) -> (host, base_url)`; an `Except.error` is
the `ValueError` that `urlparse` raises on an unbalanced bracket. -/
def _normalize_target (target : String) : Except String (String × String) :=
  if schemed (pyStrip target) then
    if bracketsBad (netlocOf (pyStrip target)) then .error "Invalid IPv6 URL"
    else
      .ok ((netlocOf (pyStrip target)).asString,
        schemeOf (pyStrip target) ++ "://" ++ (netlocOf (pyStrip target)).asString)
  else .ok (pyStrip target, "http://" ++ pyStrip target)

/-! ## Probes (`_tcp_connect`, `_banner_grab`, `_scan_port_worker`) -/

/-- `_tcp_connect`: `True` on a successful connect, `False` on any
exception. -/
def _tcp_connect (env : Env) (host : String) (port : Nat) : Bool :=
  match env.connect host port with
  | .ok _ => true
  | .error _ => false

/-- `_banner_grab`: any exception during the attempt yields `None`, empty
received data yields `None`, otherwise the decoded data stripped. -/
def _banner_grab (env : Env) (host : String) (port : Nat) : Option String :=
  match env.recv host port with
  | .error _ => none
  | .ok data => if data = "" then none else some (pyStrip data)

/-- One record of the port scan. -/
structure PortRec where
  port : Nat
  service : String
  state : String
  banner : Option String
  deriving Repr, DecidableEq

/-- `_scan_port_worker(host, port)` (lines 243-251). -/
def _scan_port_worker (env : Env) (host : String) (port : Nat) : PortRec :=
  let state := if _tcp_connect env host port then "open" else "closed"
  let banner := if state = "open" then _banner_grab env host port else none
  { port := port, service := serviceFor port, state := state, banner := banner }

/-- The port-scan phase of `run_scan`: a bounded worker pool probes every
port of the list and the `as_completed` loop collects one result per
submitted future.  Each worker is independent; the completion order is
unspecified and this model fixes the submission order. -/
def portScan (env : Env) (host : String) (ports : List Nat) : List PortRec :=
  ports.map (_scan_port_worker env host)

/-! ## `_http_basic_checks` (lines 113-176) -/

/-- The `out` dictionary of `_http_basic_checks`. -/
structure HttpOut where
  status : Option Int
  title : Option String
  server : Option String
  hsts : Bool
  csp : Option String
  robots : Option Bool
  cookie_flags : List String
  redirect_chain : List String
  deriving Repr, DecidableEq

/-- The initial `out` dictionary. -/
def httpOut0 : HttpOut :=
  { status := none, title := none, server := none, hsts := false,
    csp := none, robots := none, cookie_flags := [], redirect_chain := [] }

/-- Python `a or b` on two optional strings: `a` unless it is `None` or
empty. -/
def pyOr (a b : Option String) : Option String :=
  match a with
  | some s => if s = "" then b else some s
  | none => b

/-- `<title` matched case-insensitively, then `[^>]*>`, then the lazy
DOTALL body up to the first case-insensitive `</title>`. -/
def titleAt (cs : List Char) : Option (List Char) :=
  match matchNameCI "<title".toList cs with
  | none => none
  | some (_, rest) =>
    match rest.dropWhile (fun c => c ≠ '>') with
    | '>' :: body => titleClose body
    | _ => none
where
  /-- shortest body before a case-insensitive `</title>`. -/
  titleClose : List Char → Option (List Char)
    | [] => none
    | c :: cs =>
      match matchNameCI "</title>".toList (c :: cs) with
      | some _ => some []
      | none => (titleClose cs).map (c :: ·)

/-- `TITLE_RE.search(html)`: leftmost `<title...>` wins. -/
def titleSearch : List Char → Option (List Char)
  | [] => none
  | c :: cs =>
    match titleAt (c :: cs) with
    | some g => some g
    | none => titleSearch cs

/-- `re.sub(r"\s+", " ", x)`: collapse every whitespace run to one space. -/
def collapseWs : List Char → List Char
  | [] => []
  | [c] => if c.isWhitespace then [' '] else [c]
  | c :: d :: cs =>
    if c.isWhitespace ∧ d.isWhitespace then collapseWs (d :: cs)
    else (if c.isWhitespace then ' ' else c) :: collapseWs (d :: cs)

/-- `re.sub(r"\s+", " ", m.group(1).strip())` applied to the title match,
if any. -/
def titleOf (html : String) : Option String :=
  (titleSearch html.toList).map
    (fun g => (collapseWs (pyStrip g.asString).toList).asString)

/-- `base_url.rstrip("/")`. -/
def rstripSlash (s : String) : String :=
  ((s.toList.reverse.dropWhile (fun c => c = '/')).reverse).asString

/-- The `Set-Cookie` flag extraction (`"HttpOnly" in ...`,
`"Secure" in ...`, case-sensitive substring tests). -/
def cookieFlags (setCookie : String) : List String :=
  (if containsSub "HttpOnly" setCookie then ["HttpOnly"] else []) ++
  (if containsSub "Secure" setCookie then ["Secure"] else [])

/-- The `except requests.RequestException` handler: when the base URL is
`https://...`, retry once over plain HTTP (`"http://" + split("://",1)[1]`)
with the fields collected so far; a second failure is swallowed.  Every
oracle failure is treated as a `RequestException` (the dead
`except Exception: pass` clause would only change which partial result is
kept). -/
def httpFallback (env : Env) (base_url : String) (out : HttpOut) : HttpOut :=
  if startsStr "https://" base_url then
    match env.get ("http://" ++ (base_url.toList.drop 8).asString) with
    | .ok g =>
      { out with
        status := some g.status
        server := pyOr out.server g.server
        title :=
          match titleOf g.text with
          | some ti => some ti
          | none => out.title }
    | .error _ => out
  else out

/-- `_http_basic_checks(session, base_url)`: HEAD, then a conditional GET
(for title, robots.txt and cookie flags), never raising. -/
def _http_basic_checks (env : Env) (base_url : String) : HttpOut :=
  match env.head base_url with
  | .error _ => httpFallback env base_url httpOut0
  | .ok r =>
    let out1 : HttpOut :=
      { httpOut0 with
        status := some r.status
        server := r.server
        redirect_chain := r.history
        hsts := r.hsts
        csp := r.csp }
    let needGet :=
      out1.status.isNone ∨
        containsSub "text/html" (lowerStr (r.contentType.getD ""))
    if needGet then
      match env.get base_url with
      | .error _ => httpFallback env base_url out1
      | .ok g =>
        let out2 :=
          { out1 with
            status := some g.status
            server := pyOr out1.server g.server
            title :=
              match titleOf g.text with
              | some ti => some ti
              | none => out1.title }
        let robots :=
          match env.get (rstripSlash base_url ++ "/robots.txt") with
          | .ok rr => some (rr.status == 200)
          | .error _ => none
        { out2 with robots := robots, cookie_flags := cookieFlags g.setCookie }
    else out1

/-! ## `_tls_cert_info` (lines 179-219) -/

/-- The dictionary returned by `_tls_cert_info`. -/
structure TlsInfo where
  issuer : Option String
  subject : Option String
  sans : List String
  valid_from : Option String
  valid_to : Option String
  days_left : Option Int
  valid : Option Bool
  deriving Repr, DecidableEq

/-- The dictionary built by `_tls_cert_info` from a successfully read
certificate: `days_left = (not_after - now).days` (`timedelta.days`
floors, i.e. `Int.fdiv` by 86400 seconds) and `valid = days_left > 0`,
both `None` when `notAfter` is missing or unparseable. -/
def tlsInfoOfCert (env : Env) (cert : PeerCert) : TlsInfo :=
  let base : TlsInfo :=
    { issuer := cert.issuer
      subject := cert.subject
      sans := cert.subjectAltName.map (·.2)
      valid_from := cert.notBefore
      valid_to := cert.notAfter
      days_left := none
      valid := none }
  match cert.notAfter.bind env.parseDate with
  | none => base
  | some ts =>
    let d := (ts - env.now).fdiv 86400
    { base with days_left := some d, valid := some (decide (0 < d)) }

/-- `_tls_cert_info(host)`: `None` on any handshake failure, otherwise the
certificate summary. -/
def _tls_cert_info (env : Env) (host : String) : Option TlsInfo :=
  match env.tlsCert host with
  | .error _ => none
  | .ok cert => some (tlsInfoOfCert env cert)

/-! ## `run_scan` (lines 256-349) -/

/-- One entry of the `vulnerabilities` list of the report. -/
structure Vuln where
  severity : String
  name : String
  path : String
  description : String
  impact : String
  remediation : String
  reference_links : List String
  deriving Repr, DecidableEq

/-- The reference-link stem used by `run_scan`. -/
def linkStem : String := "https://cve.mitre.org/cgi-bin/cvename.cgi?name="

/-- The hint dictionary appended for one CVE id of one fingerprint. -/
def mkHint (prod : String) (ver : Option String) (cve : String) : Vuln :=
  { severity := "low"
    name := "Possible exposure: " ++ cve
    path := "/"
    description :=
      "Service fingerprint suggests " ++ prod ++
        (match ver with
         | some v => if v = "" then "" else " " ++ v
         | none => "") ++
        " may be affected by " ++ cve ++ ". Manual verification required."
    impact := "May indicate outdated or vulnerable software version."
    remediation :=
      "Verify software version; if affected, update to a patched release."
    reference_links := [linkStem ++ cve] }

/-- The CVE id a hint carries, read back off its reference link. -/
def cveIdOf (v : Vuln) : String :=
  ((v.reference_links.headD "").toList.drop linkStem.length).asString

/-- The candidate-deduplication loop of `run_scan` (lines 312-319), keyed
by `(prod.lower(), (ver or "").lower())`. -/
def dedupCandsGo (seen : List (String × String)) :
    List (String × Option String) → List (String × Option String)
  | [] => []
  | (prod, ver) :: rest =>
    let k := (lowerStr prod, lowerStr (ver.getD ""))
    if k ∈ seen then dedupCandsGo seen rest
    else (prod, ver) :: dedupCandsGo (k :: seen) rest

def dedupCands (cands : List (String × Option String)) :
    List (String × Option String) :=
  dedupCandsGo [] cands

/-- The provider loop of `run_scan` (lines 323-342): for each fingerprint
query the providers (threading the cache store) and build one block of
hints, one hint per returned CVE id.  The `try/except` around
`query_cves_for_product_version` never fires in the model because the
function is total. -/
def hintBlocks (env : Env) :
    List (String × Option String) → CveStore → List (List Vuln) × CveStore
  | [], s => ([], s)
  | (prod, ver) :: rest, s =>
    let q := query_cves_for_product_version env prod ver s
    let block := q.1.map (mkHint prod ver)
    let more := hintBlocks env rest q.2
    (block :: more.1, more.2)

/-- The aggregate report; `http_info = none` models the empty dictionary
`{}` (no reachable HTTP scheme or a failure of the whole block), and
`tls_info = none` models the `tls_info or {}` collapse. -/
structure ScanReport where
  open_ports : List PortRec
  http_info : Option HttpOut
  tls_info : Option TlsInfo
  vulnerabilities : List Vuln
  deriving Repr, DecidableEq

/-- The banner candidates of `run_scan`: `if p.get("banner"):` is a
truthiness test, so `None` and `""` banners are skipped. -/
def bannerCandidates (records : List PortRec) : List (String × Option String) :=
  records.filterMap (fun p =>
    match p.banner with
    | some b => if b = "" then none else _extract_product_version (some b)
    | none => none)

/-- The server-header candidate: `if http_info.get("server"):`. -/
def serverCandidate (httpInfo : Option HttpOut) :
    List (String × Option String) :=
  match httpInfo with
  | some hi =>
    match hi.server with
    | some sv =>
      if sv = "" then []
      else
        match _extract_product_version (some sv) with
        | some pv => [pv]
        | none => []
    | none => []
  | none => []

/-- `run_scan(scan_id, target, mode)` (lines 256-349).  The only uncaught
exception site is `_normalize_target` (`urlparse`); everything after it is
wrapped in the source's own `try/except` blocks, modelled inside the
called functions. -/
def run_scan (env : Env) (_scan_id : Nat) (target : String) (mode : String)
    (s : CveStore) : Except String (ScanReport × CveStore) :=
  match _normalize_target target with
  | .error e => .error e
  | .ok (host, base_url) =>
  let ports := portsFor mode
  let open_ports := portScan env host ports
  let has_http := open_ports.any (fun p => p.port == 80 && p.state == "open")
  let has_https := open_ports.any (fun p => p.port == 443 && p.state == "open")
  let base : Option String :=
    if has_https then
      some (if startsStr "https://" base_url then base_url
            else "https://" ++ host)
    else if has_http then
      some (if startsStr "http://" base_url then base_url
            else "http://" ++ host)
    else none
  let http_info : Option HttpOut := base.map (_http_basic_checks env)
  let tls_info : Option TlsInfo :=
    if open_ports.any (fun p => p.port == 443 && p.state == "open") then
      _tls_cert_info env host
    else none
  let candidates := bannerCandidates open_ports ++ serverCandidate http_info
  let unique_candidates := dedupCands candidates
  let vulnsState :=
    if mode = "full" then hintBlocks env unique_candidates s else ([], s)
  let report : ScanReport :=
    { open_ports := open_ports
      http_info := http_info
      tls_info := tls_info
      vulnerabilities := vulnsState.1.flatten }
  .ok (report, vulnsState.2)

/-- The CVE ids carried by a finished report, in report order; `[]` when
the scan raised. -/
def reportCves (r : Except String (ScanReport × CveStore)) : List String :=
  match r with
  | .ok (rep, _) => rep.vulnerabilities.map cveIdOf
  | .error _ => []

/-! ## Concrete environments used to instantiate the theorems -/

/-- A world where every outbound call fails. -/
def envNone : Env :=
  { connect := fun _ _ => .error "refused"
    recv := fun _ _ => .error "refused"
    head := fun _ => .error "refused"
    get := fun _ => .error "refused"
    tlsCert := fun _ => .error "refused"
    parseDate := fun _ => none
    now := 0
    time := 0
    cveTTLVar := none
    nvdApiKey := none
    osvFetch := fun _ _ => .error "down"
    nvdFetch := fun _ => .error "down"
    circlFetch := fun _ _ => .error "down" }

/-- A world where ports 21 and 22 answer with banners whose fingerprints
(`nginx 1.0` and `OpenSSH 9.0`) have overlapping OSV results. -/
def envC2 : Env :=
  { envNone with
    connect := fun _ port =>
      if port = 21 ∨ port = 22 then .ok () else .error "refused"
    recv := fun _ port =>
      if port = 21 then .ok "nginx/1.0"
      else if port = 22 then .ok "OpenSSH_9.0"
      else .error "refused"
    osvFetch := fun p _ =>
      if p = "nginx" then .ok ["CVE-2024-0002"]
      else if p = "OpenSSH" then .ok ["CVE-2024-0001", "CVE-2024-0002"]
      else .ok []
    circlFetch := fun _ _ => .ok [] }

/-- A world whose TLS endpoint reports the host string as `notAfter`,
parsed to 10 whole days after `now` for host `"future"` and to a moment
in the past for host `"past"`. -/
def envTls : Env :=
  { envNone with
    tlsCert := fun host =>
      .ok { notBefore := none, notAfter := some host, subjectAltName := [],
            issuer := none, subject := none }
    parseDate := fun s =>
      if s = "future" then some (10 * 86400)
      else if s = "past" then some (-5)
      else none }

/-! # Theorems

General lemmas first, then one theorem (with witness or counterexample
where required) per claim. -/

theorem char_cons_lt_cons_iff {x : Char} {xs ys : List Char} :
    x :: xs < x :: ys ↔ xs < ys := by
  constructor
  · intro h
    cases h with
    | cons h => exact h
    | rel h => exact absurd h (lt_irrefl x)
  · exact fun h => List.Lex.cons h

theorem charListLe_iff : ∀ a b : List Char, charListLe a b = true ↔ a ≤ b
  | [], b => by
    simp only [charListLe, true_iff]
    exact List.nil_le
  | x :: xs, [] => by
    simp only [charListLe, Bool.false_eq_true, false_iff, ← not_lt]
    intro h
    exact h (List.nil_lt_cons x xs)
  | x :: xs, y :: ys => by
    rcases eq_or_ne x y with rfl | hxy
    · simp only [charListLe, eq_self_iff_true, if_true]
      rw [charListLe_iff xs ys]
      constructor
      · intro h
        rw [← not_lt] at h ⊢
        exact fun hc => h (char_cons_lt_cons_iff.mp hc)
      · intro h
        rw [← not_lt] at h ⊢
        exact fun hc => h (char_cons_lt_cons_iff.mpr hc)
    · simp only [charListLe, if_neg hxy]
      rcases lt_or_gt_of_ne hxy with hlt | hgt
      · simp only [decide_eq_true_eq, hlt, true_iff, ← not_lt]
        intro h
        cases h with
        | cons _ => exact hxy rfl
        | rel h => exact absurd hlt (asymm h)
      · simp only [decide_eq_true_eq]
        constructor
        · intro h
          exact absurd h (asymm hgt)
        · intro h
          exact absurd (show y :: ys < x :: xs from List.Lex.rel hgt)
            (not_lt.mpr h)

theorem strLeB_iff (a b : String) : strLeB a b = true ↔ a ≤ b := by
  rw [strLeB, charListLe_iff, String.le_iff_toList_le]

instance : IsTotal String (fun a b => strLeB a b = true) :=
  ⟨fun a b => by
    simp only [strLeB_iff]
    exact le_total a b⟩

instance : IsTrans String (fun a b => strLeB a b = true) :=
  ⟨fun a b c hab hbc => by
    rw [strLeB_iff] at *
    exact le_trans hab hbc⟩

theorem pySortedSet_sorted (l : List String) :
    (pySortedSet l).Sorted (· ≤ ·) :=
  (List.sorted_insertionSort _ l.dedup).imp (fun h => (strLeB_iff _ _).mp h)

theorem pySortedSet_nodup (l : List String) : (pySortedSet l).Nodup :=
  (List.perm_insertionSort (fun a b => strLeB a b = true) l.dedup).symm.nodup
    (List.nodup_dedup l)

theorem pySortedSet_sorted_lt (l : List String) :
    (pySortedSet l).Sorted (· < ·) :=
  (pySortedSet_sorted l).lt_of_le (pySortedSet_nodup l)

theorem strAppend_left_cancel {x a b : String} (h : x ++ a = x ++ b) :
    a = b := by
  have h2 : x.toList ++ a.toList = x.toList ++ b.toList := congrArg String.toList h
  exact String.toList_inj.mp (List.append_cancel_left h2)

theorem cveIdOf_mkHint (p : String) (v : Option String) (c : String) :
    cveIdOf (mkHint p v c) = c := by
  show ((linkStem ++ c).toList.drop linkStem.length).asString = c
  have h : (linkStem ++ c).toList = linkStem.toList ++ c.toList := rfl
  rw [h, show linkStem.length = linkStem.toList.length from rfl,
    List.drop_left, String.asString_toList]

theorem query_cves_shape (env : Env) (product : String)
    (version : Option String) (s : CveStore) :
    (query_cves_for_product_version env product version s).1 = [] ∨
    ∃ l, (query_cves_for_product_version env product version s).1 =
      pySortedSet l := by
  unfold query_cves_for_product_version
  dsimp only
  split
  · exact Or.inl rfl
  · exact Or.inr ⟨_, rfl⟩

theorem query_cves_sorted_lt (env : Env) (product : String)
    (version : Option String) (s : CveStore) :
    ((query_cves_for_product_version env product version s).1).Sorted
      (· < ·) := by
  rcases query_cves_shape env product version s with h | ⟨l, h⟩ <;> rw [h]
  · exact List.sorted_nil
  · exact pySortedSet_sorted_lt l

/-- Claim C3: for every single fingerprint (product, version), the list
returned by `query_cves_for_product_version` is deduplicated and
lexicographically sorted, whatever the three providers (or the cache)
contribute. -/
theorem C3_query_cves_dedup_sorted (env : Env) (product : String)
    (version : Option String) (s : CveStore) :
    ((query_cves_for_product_version env product version s).1).Sorted
        (· ≤ ·) ∧
      ((query_cves_for_product_version env product version s).1).Nodup := by
  have h := query_cves_sorted_lt env product version s
  exact ⟨h.imp le_of_lt, h.nodup⟩

/-- Claim C10: in the in-process fallback store a `ttl` of `0` stores no
expiry timestamp, so the value is still returned at every later read. -/
theorem C10_zero_ttl_never_expires (s : Store) (k v : String) (now t : Nat) :
    (cacheGet (cacheSet s now k v 0) t k).1 = some v := by
  simp [cacheGet, cacheSet]

/-- Claim C4, counterexample: with `ttl = 5` set at time `0`, a read at
time exactly `5` (that is, `T` seconds after the set) still returns the
value, where the claim demands absence at every time `≥ T` after the set. -/
theorem C4_counterexample :
    (cacheGet (cacheSet emptyStore 0 "k" "v" 5) 5 "k").1 = some "v" ∧
    some "v" ≠ (none : Option String) := by
  constructor
  · decide
  · decide

/-- Claim C4, amended: an immediate read returns the value, and a read
strictly more than `T` seconds after the set returns absent (the source
expires entries with `expires_at < time.time()`, a strict comparison). -/
theorem C4_amended_cache_round_trip (s : Store) (k v : String)
    (T now t : Nat) (hT : 0 < T) :
    (cacheGet (cacheSet s now k v T) now k).1 = some v ∧
    (now + T < t → (cacheGet (cacheSet s now k v T) t k).1 = none) := by
  have hT0 : T ≠ 0 := by omega
  constructor
  · have h1 : ¬ (now + T ≠ 0 ∧ now + T < now) := by omega
    simp [cacheGet, cacheSet, hT0, h1]
  · intro ht
    have h1 : now + T ≠ 0 ∧ now + T < t := by omega
    simp [cacheGet, cacheSet, hT0, h1]

theorem C4_amended_witness :
    (cacheGet (cacheSet emptyStore 0 "k" "v" 5) 0 "k").1 = some "v" ∧
    (cacheGet (cacheSet emptyStore 0 "k" "v" 5) 6 "k").1 = none :=
  ⟨(C4_amended_cache_round_trip emptyStore "k" "v" 5 0 0 (by decide)).1,
   (C4_amended_cache_round_trip emptyStore "k" "v" 5 0 6 (by decide)).2
     (by decide)⟩

/-- Claim C5: the port-probe phase produces exactly one record per port of
the requested mode's fixed list (first two conjuncts: the ports of the
records are exactly the mode's duplicate-free list) and every record's
service label is the static table entry, `"unknown"` when absent. -/
theorem C5_port_scan_exhaustive (env : Env) (host : String) (mode : String) :
    (portScan env host (portsFor mode)).map PortRec.port = portsFor mode ∧
    (portsFor mode).Nodup ∧
    (portScan env host (portsFor mode)).all
      (fun r => r.service == serviceFor r.port) = true := by
  refine ⟨?_, ?_, ?_⟩
  · rw [portScan, List.map_map]
    exact List.map_id'' (fun p => rfl) (portsFor mode)
  · rw [portsFor]
    split
    · decide
    · decide
  · rw [List.all_eq_true]
    intro r hr
    rcases List.mem_map.mp hr with ⟨p, _, rfl⟩
    exact beq_self_eq_true _

/-- Claim C2, counterexample: two fingerprints (`nginx 1.0` from the port
21 banner and `OpenSSH 9.0` from the port 22 banner) whose provider
results overlap produce a report whose CVE ids repeat (and are unsorted):
the per-fingerprint lists are concatenated without a report-level merge. -/
theorem C2_counterexample :
    reportCves (run_scan envC2 1 "scanme.example" "full" emptyCveStore) =
      ["CVE-2024-0002", "CVE-2024-0001", "CVE-2024-0002"] ∧
    ¬ (reportCves
        (run_scan envC2 1 "scanme.example" "full" emptyCveStore)).Nodup := by
  constructor
  · decide
  · decide

theorem hintBlocks_cves_sorted (env : Env) :
    ∀ (cands : List (String × Option String)) (s : CveStore),
      ∀ b ∈ (hintBlocks env cands s).1, (b.map cveIdOf).Sorted (· < ·) := by
  intro cands
  induction cands with
  | nil => intro s b hb; simp [hintBlocks] at hb
  | cons pv rest ih =>
    intro s b hb
    obtain ⟨prod, ver⟩ := pv
    rw [hintBlocks] at hb
    rcases List.mem_cons.mp hb with rfl | hb
    · rw [List.map_map]
      have he : (cveIdOf ∘ mkHint prod ver) =
          fun c : String => c := by
        funext c
        exact cveIdOf_mkHint prod ver c
      rw [he, List.map_id']
      exact query_cves_sorted_lt env prod ver s
    · exact ih _ b hb

/-- Claim C2, amended: within the block of hints produced for one
fingerprint the CVE ids are pairwise distinct and sorted, and the report's
vulnerability list is the concatenation of these per-fingerprint blocks;
across blocks ids may repeat and need not be sorted. -/
theorem C2_amended_blocks (env : Env) :
    (∀ (cands : List (String × Option String)) (s : CveStore),
      ∀ b ∈ (hintBlocks env cands s).1, (b.map cveIdOf).Sorted (· < ·)) ∧
    (∀ (id : Nat) (target mode : String) (s : CveStore) (r : ScanReport)
      (s' : CveStore), run_scan env id target mode s = .ok (r, s') →
      ∃ cands s0, r.vulnerabilities = ((hintBlocks env cands s0).1).flatten) := by
  constructor
  · exact hintBlocks_cves_sorted env
  · intro id target mode s r s' h
    unfold run_scan at h
    cases hn : _normalize_target target with
    | error e => rw [hn] at h; exact absurd h (by simp)
    | ok hb =>
      obtain ⟨host, base_url⟩ := hb
      rw [hn] at h
      rw [Except.ok.injEq, Prod.mk.injEq] at h
      obtain ⟨rfl, rfl⟩ := h
      by_cases hm : mode = "full"
      · subst hm
        exact ⟨_, s, rfl⟩
      · refine ⟨[], s, ?_⟩
        dsimp only
        rw [if_neg hm]
        rfl

theorem C2_amended_blocks_witness :
    ([mkHint "nginx" (some "1.0") "CVE-2024-0002"].map cveIdOf).Sorted
        (· < ·) ∧
    ∃ cands s0,
      ({ open_ports := portScan envNone "spare.host" (portsFor "quick")
         http_info := none
         tls_info := none
         vulnerabilities := [] } : ScanReport).vulnerabilities =
        ((hintBlocks envNone cands s0).1).flatten :=
  ⟨(C2_amended_blocks envC2).1 [("nginx", some "1.0")] emptyCveStore
      [mkHint "nginx" (some "1.0") "CVE-2024-0002"] (by decide),
   (C2_amended_blocks envNone).2 1 "spare.host" "quick" emptyCveStore
      _ emptyCveStore rfl⟩

/-- Claim C1: the aggregate report always carries the four components
`open_ports`, `http_info`, `tls_info` and `vulnerabilities` (the
`ScanReport` structure), and `run_scan` returns it whenever the target
normalisation succeeds (second conjunct) — but the claim that it never
raises for every target is wrong: the `urlparse` call inside
`_normalize_target` is the one site no `try/except` protects, and it
raises `ValueError("Invalid IPv6 URL")` for a target such as
`"http://["` with an unbalanced bracket in the authority (first
conjunct), whatever the outcome of every probe. -/
theorem C1_run_scan_totality :
    (∀ (env : Env) (id : Nat) (mode : String) (s : CveStore),
      run_scan env id "http://[" mode s = .error "Invalid IPv6 URL") ∧
    (∀ (env : Env) (id : Nat) (target mode : String) (s : CveStore)
      (hb : String × String), _normalize_target target = .ok hb →
      ∃ r s', run_scan env id target mode s = .ok (r, s')) := by
  constructor
  · intro env id mode s
    rfl
  · intro env id target mode s hb hn
    obtain ⟨host, base_url⟩ := hb
    unfold run_scan
    rw [hn]
    exact ⟨_, _, rfl⟩

theorem C1_run_scan_totality_witness :
    ∃ r s', run_scan envNone 1 "bare.host" "quick" emptyCveStore =
      .ok (r, s') :=
  C1_run_scan_totality.2 envNone 1 "bare.host" "quick" emptyCveStore
    ("bare.host", "http://bare.host") rfl

theorem firstPatMatch_eq_none {pats : List ProdPat} {cs : List Char}
    (h : ∀ pat ∈ pats, patSearch pat cs = none) :
    firstPatMatch pats cs = none := by
  induction pats with
  | nil => rfl
  | cons p ps ih =>
    simp only [firstPatMatch, h p (List.mem_cons_self p ps)]
    exact ih fun q hq => h q (List.mem_cons_of_mem p hq)

theorem firstGoodToken_eq_none {toks : List (List Char)}
    (h : ∀ tok ∈ toks, goodToken tok = false) :
    firstGoodToken toks = none := by
  induction toks with
  | nil => rfl
  | cons t ts ih =>
    simp only [firstGoodToken, h t (List.mem_cons_self t ts),
      Bool.false_eq_true, if_false]
    exact ih fun q hq => h q (List.mem_cons_of_mem t hq)

/-- Claim C6: the fingerprint extractor maps `"nginx/1.23.4"` to
`(nginx, 1.23.4)` and `"OpenSSH_8.9p1 Ubuntu-3"` to `(OpenSSH, 8.9p1)`;
absent and empty input give no fingerprint; and input on which every
pattern search fails and whose delimiter-split tokens contain no
all-alphabetic token longer than 2 gives no fingerprint. -/
theorem C6_fingerprint_extraction :
    _extract_product_version (some "nginx/1.23.4") =
      some ("nginx", some "1.23.4") ∧
    _extract_product_version (some "OpenSSH_8.9p1 Ubuntu-3") =
      some ("OpenSSH", some "8.9p1") ∧
    _extract_product_version none = none ∧
    _extract_product_version (some "") = none ∧
    (∀ s : String,
      (∀ pat ∈ PRODUCT_PATTERNS, patSearch pat (pyStrip s).toList = none) →
      (∀ tok ∈ splitDelims (pyStrip s).toList, goodToken tok = false) →
      _extract_product_version (some s) = none) := by
  refine ⟨by decide, by decide, rfl, rfl, ?_⟩
  intro s hpat htok
  rw [_extract_product_version]
  by_cases hs : s = ""
  · rw [if_pos hs]
  · rw [if_neg hs]
    dsimp only
    rw [firstPatMatch_eq_none hpat, firstGoodToken_eq_none htok]
    rfl

theorem C6_fingerprint_extraction_witness :
    _extract_product_version (some "12345!!") = none :=
  C6_fingerprint_extraction.2.2.2.2 "12345!!" (by decide) (by decide)

theorem tls_cert_info_of_ok {env : Env} {host : String} {cert : PeerCert}
    (hc : env.tlsCert host = .ok cert) :
    _tls_cert_info env host = some (tlsInfoOfCert env cert) := by
  unfold _tls_cert_info
  rw [hc]

theorem tlsInfoOfCert_of_parsed {env : Env} {cert : PeerCert} {str : String}
    {ts : Int} (hna : cert.notAfter = some str)
    (hp : env.parseDate str = some ts) :
    (tlsInfoOfCert env cert).days_left = some ((ts - env.now).fdiv 86400) ∧
    (tlsInfoOfCert env cert).valid =
      some (decide (0 < (ts - env.now).fdiv 86400)) := by
  unfold tlsInfoOfCert
  rw [hna, Option.some_bind, hp]
  exact ⟨rfl, rfl⟩

/-- Claim C7: a parsed `notAfter` exactly 10 whole days after the current
time yields `days_left = 10` and `valid = true`; a parsed `notAfter` in
the past yields `valid = false`; and in every returned record `valid` is
`true` exactly when `days_left` is present and positive. -/
theorem C7_tls_validity :
    (∀ (env : Env) (host : String) (cert : PeerCert) (str : String),
      env.tlsCert host = .ok cert → cert.notAfter = some str →
      env.parseDate str = some (env.now + 10 * 86400) →
      ∃ info, _tls_cert_info env host = some info ∧
        info.days_left = some 10 ∧ info.valid = some true) ∧
    (∀ (env : Env) (host : String) (cert : PeerCert) (str : String)
      (ts : Int),
      env.tlsCert host = .ok cert → cert.notAfter = some str →
      env.parseDate str = some ts → ts < env.now →
      ∃ info, _tls_cert_info env host = some info ∧
        info.valid = some false) ∧
    (∀ (env : Env) (host : String) (info : TlsInfo),
      _tls_cert_info env host = some info →
      (info.valid = some true ↔ ∃ d, info.days_left = some d ∧ 0 < d)) := by
  refine ⟨?_, ?_, ?_⟩
  · intro env host cert str hc hna hp
    refine ⟨_, tls_cert_info_of_ok hc, ?_, ?_⟩
    · rw [(tlsInfoOfCert_of_parsed hna hp).1, add_sub_cancel_left]
      norm_num
      decide
    · rw [(tlsInfoOfCert_of_parsed hna hp).2, add_sub_cancel_left]
      norm_num
      decide
  · intro env host cert str ts hc hna hp hpast
    refine ⟨_, tls_cert_info_of_ok hc, ?_⟩
    rw [(tlsInfoOfCert_of_parsed hna hp).2]
    have hneg : (ts - env.now).fdiv 86400 < 0 := by
      rw [Int.fdiv_eq_ediv _ (by decide)]
      exact Int.ediv_neg' (by omega) (by decide)
    simp [decide_eq_false (not_lt_of_gt hneg)]
  · intro env host info hi
    unfold _tls_cert_info at hi
    cases hc : env.tlsCert host with
    | error e => rw [hc] at hi; exact absurd hi (by simp)
    | ok cert =>
      rw [hc, Option.some_inj] at hi
      subst hi
      unfold tlsInfoOfCert
      cases hb : cert.notAfter.bind env.parseDate with
      | none => simp
      | some ts =>
        by_cases hpos : 0 < (ts - env.now).fdiv 86400
        · simp [hpos]
        · simp [hpos]

theorem C7_tls_validity_witness :
    (∃ info, _tls_cert_info envTls "future" = some info ∧
      info.days_left = some 10 ∧ info.valid = some true) ∧
    (∃ info, _tls_cert_info envTls "past" = some info ∧
      info.valid = some false) ∧
    (({ issuer := none, subject := none, sans := [], valid_from := none,
        valid_to := some "future", days_left := some 10,
        valid := some true } : TlsInfo).valid = some true ↔
      ∃ d, ({ issuer := none, subject := none, sans := [],
              valid_from := none, valid_to := some "future",
              days_left := some 10, valid := some true } : TlsInfo).days_left
          = some d ∧ 0 < d) :=
  ⟨C7_tls_validity.1 envTls "future" ⟨none, some "future", [], none, none⟩
      "future" rfl rfl (by decide),
   C7_tls_validity.2.1 envTls "past" ⟨none, some "past", [], none, none⟩
      "past" (-5) rfl rfl (by decide) (by decide),
   C7_tls_validity.2.2 envTls "future" _ (by decide)⟩

/-- Claim C8, counterexample: the normalizer raises (`urlparse`'s
`ValueError`) on `"http://["`, so it does not return for every raw
target; and for `" example.com "` the returned host is the stripped
string, not the input unchanged. -/
theorem C8_counterexample :
    _normalize_target "http://[" = .error "Invalid IPv6 URL" ∧
    _normalize_target " example.com " =
      .ok ("example.com", "http://example.com") ∧
    "example.com" ≠ " example.com " :=
  ⟨rfl, rfl, by decide⟩

/-- Claim C8, amended: for a target whose stripped form does not start
with a URL scheme the normalizer returns the stripped input as host with
the default `http` scheme; for scheme inputs it extracts the host from
the URL authority and preserves the scheme in the base URL, raising
(`ValueError` from `urlparse`) when the authority contains an unbalanced
square bracket.  The host-extraction conjunct is stated for authorities
with no square bracket at all and targets with no embedded tab or
newline, because `urlsplit` additionally strips those bytes and recent
CPython versions also validate bracketed hosts — neither is modelled. -/
theorem C8_amended_normalize :
    (∀ target : String, schemed (pyStrip target) = false →
      _normalize_target target =
        .ok (pyStrip target, "http://" ++ pyStrip target)) ∧
    (∀ target : String, schemed (pyStrip target) = true →
      '[' ∉ netlocOf (pyStrip target) → ']' ∉ netlocOf (pyStrip target) →
      (∀ c ∈ target.toList, c ≠ '\t' ∧ c ≠ '\n' ∧ c ≠ '\r') →
      _normalize_target target =
        .ok ((netlocOf (pyStrip target)).asString,
          schemeOf (pyStrip target) ++ "://" ++
            (netlocOf (pyStrip target)).asString)) ∧
    (∀ target : String, schemed (pyStrip target) = true →
      bracketsBad (netlocOf (pyStrip target)) = true →
      _normalize_target target = .error "Invalid IPv6 URL") := by
  refine ⟨?_, ?_, ?_⟩
  · intro target h1
    unfold _normalize_target
    rw [h1]
    rfl
  · intro target h1 hbl hbr _
    have h2 : bracketsBad (netlocOf (pyStrip target)) = false := by
      simp [bracketsBad, hbl, hbr]
    unfold _normalize_target
    rw [h1, h2]
    rfl
  · intro target h1 h2
    unfold _normalize_target
    rw [h1, h2]
    rfl

theorem C8_amended_normalize_witness :
    _normalize_target "  myhost  " = .ok ("myhost", "http://myhost") ∧
    _normalize_target "https://example.com:8443/path" =
      .ok ("example.com:8443", "https://example.com:8443") ∧
    _normalize_target "http://[x" = .error "Invalid IPv6 URL" :=
  ⟨C8_amended_normalize.1 "  myhost  " (by decide),
   C8_amended_normalize.2.1 "https://example.com:8443/path" (by decide)
     (by decide) (by decide) (by decide),
   C8_amended_normalize.2.2 "http://[x" (by decide) (by decide)⟩

theorem joinParts_append_singleton :
    ∀ (l : List String), l ≠ [] → ∀ a : String,
      joinParts (l ++ [a]) = joinParts l ++ ":" ++ a
  | [], h, _ => absurd rfl h
  | [_], _, _ => rfl
  | p :: q :: rest, _, a => by
    have ih := joinParts_append_singleton (q :: rest) (by simp) a
    show p ++ ":" ++ joinParts ((q :: rest) ++ [a]) =
      p ++ ":" ++ joinParts (q :: rest) ++ ":" ++ a
    rw [ih]
    simp [String.append_assoc]

theorem cache_key_last_ne (front : List String) {a b : String}
    (ha : a ≠ "") (hb : b ≠ "") (hne : normPart a ≠ normPart b) :
    cache_key (front ++ [a]) ≠ cache_key (front ++ [b]) := by
  intro h
  unfold cache_key at h
  have hfa : (front ++ [a]).filter (fun p => p ≠ "") =
      front.filter (fun p => p ≠ "") ++ [a] := by
    rw [List.filter_append]
    simp [ha]
  have hfb : (front ++ [b]).filter (fun p => p ≠ "") =
      front.filter (fun p => p ≠ "") ++ [b] := by
    rw [List.filter_append]
    simp [hb]
  rw [hfa, hfb, List.map_append, List.map_append] at h
  simp only [List.map_cons, List.map_nil] at h
  rcases eq_or_ne ((front.filter (fun p => p ≠ "")).map normPart) []
    with hF | hF
  · rw [hF] at h
    simp only [List.nil_append] at h
    exact hne (strAppend_left_cancel h)
  · rw [joinParts_append_singleton _ hF, joinParts_append_singleton _ hF]
      at h
    exact hne (strAppend_left_cancel (strAppend_left_cancel h))

/-- Claim C9, counterexample: the CIRCL cache key is built from the
guessed vendor and the product only, so two lookups for the same product
with different versions share one cache key; and even the OSV key does
not separate versions that the key normalisation conflates (`"1.0A"` vs
`"1.0a"`). -/
theorem C9_counterexample :
    circlKeyOfFingerprint "nginx" (some "1.0") =
      circlKeyOfFingerprint "nginx" (some "2.0") ∧
    some "1.0" ≠ some "2.0" ∧
    osvKeyOf "nginx" (some "1.0A") = osvKeyOf "nginx" (some "1.0a") ∧
    "1.0A" ≠ "1.0a" :=
  ⟨rfl, by decide, by decide, by decide⟩

/-- Claim C9, amended: every provider call is wrapped in a cache lookup
with the configured TTL defaulting to 86400 seconds; the OSV key
separates versions of one product whenever the key normalisation
(lowercasing, spaces to underscores, empty parts dropped) keeps them
distinct; the NVD key does the same for distinct normalised keyword
queries; but the CIRCL key ignores the version entirely. -/
theorem C9_amended_cache_keys :
    cveCacheTTL none = 86400 ∧
    (∀ p v₁ v₂ : String, v₁ ≠ "" → v₂ ≠ "" →
      normPart v₁ ≠ normPart v₂ →
      osvKeyOf p (some v₁) ≠ osvKeyOf p (some v₂)) ∧
    (∀ (p : String) (v₁ v₂ : Option String),
      nvdQuery p v₁ ≠ "" → nvdQuery p v₂ ≠ "" →
      normPart (nvdQuery p v₁) ≠ normPart (nvdQuery p v₂) →
      nvdKeyOf p v₁ ≠ nvdKeyOf p v₂) ∧
    (∀ (p : String) (v₁ v₂ : Option String),
      circlKeyOfFingerprint p v₁ = circlKeyOfFingerprint p v₂) := by
  refine ⟨rfl, ?_, ?_, fun p v₁ v₂ => rfl⟩
  · intro p v₁ v₂ h1 h2 hne
    exact cache_key_last_ne ["cve", "osv", pyStrip p] h1 h2 hne
  · intro p v₁ v₂ h1 h2 hne
    exact cache_key_last_ne ["cve", "nvd"] h1 h2 hne

theorem C9_amended_cache_keys_witness :
    osvKeyOf "nginx" (some "1.0") ≠ osvKeyOf "nginx" (some "2.0") ∧
    nvdKeyOf "nginx" (some "1.0") ≠ nvdKeyOf "nginx" (some "2.0") :=
  ⟨C9_amended_cache_keys.2.1 "nginx" "1.0" "2.0" (by decide) (by decide)
      (by decide),
   C9_amended_cache_keys.2.2.1 "nginx" (some "1.0") (some "2.0")
      (by decide) (by decide) (by decide)⟩

end Scanner
